import Mathlib

/-!
Verification development for the `awaitable-bool` crate (`src/lib.rs`).

The crate provides `AwaitableBool`, a struct of an `AtomicBool` and a
`tokio::sync::Notify`.  We shallowly embed it:

* the `AtomicBool` becomes a `Bool` (sequentially consistent shallow model;
  memory-ordering annotations have no observable effect in a sequential
  interleaving model);
* `tokio::sync::Notify` is modelled by its documented `notify_waiters` /
  `notified` semantics as used by this crate: `notify_waiters` wakes every
  currently registered waiter and stores no permit for future waiters.
  We keep a `generation` counter (number of `notify_waiters` calls so far)
  and a count of currently registered waiters.  A waiter registered at
  generation `g` is woken exactly when the generation has since advanced.
  The crate never calls `notify_one`, so no stored-permit state is needed;
* the `async fn` waiters become explicit poll automata: a poll takes the
  future's own state plus the shared `AwaitableBool` state and returns the
  updated pair, mirroring one synchronous `poll` of the Rust future.
-/

/-- Model of `tokio::sync::Notify` as used by this crate: `generation` counts
`notify_waiters` broadcasts so far, `waiters` counts currently registered
(suspended) waiters. -/
structure Notify where
  generation : Nat
  waiters : Nat
deriving DecidableEq, Repr

/-- Model of `Notify::new()`: no broadcasts yet, no waiters. -/
def Notify.new : Notify := ⟨0, 0⟩

/-- Model of `Notify::notify_waiters()`: wakes (deregisters) every currently
registered waiter and advances the broadcast generation.  No permit is stored
for tasks that register later. -/
def Notify.notifyWaiters (n : Notify) : Notify := ⟨n.generation + 1, 0⟩

/-- Registering a waiter (first poll of a `Notified` future): remembers the
current generation and joins the waiter list. -/
def Notify.register (n : Notify) : Notify := ⟨n.generation, n.waiters + 1⟩

/-- A waiter registered at generation `g` has been woken exactly when a
broadcast happened after its registration. -/
def Notify.woken (n : Notify) (g : Nat) : Bool := decide (g < n.generation)

/-- Model of `AtomicBool::compare_exchange(expected, new, ..)` on current value
`cur`: returns the new value of the cell and whether the exchange succeeded
(`is_ok()`). -/
def compareExchange (cur expected new : Bool) : Bool × Bool :=
  if cur = expected then (new, true) else (cur, false)

/-- Model of `AtomicBool::fetch_xor(operand, ..)`: returns the new value of the
cell (the previous value, which `fetch_xor` returns in Rust, is unused by the
crate). -/
def fetchXor (cur operand : Bool) : Bool := xor cur operand

/-- The `AwaitableBool` struct from `src/lib.rs`: an atomic `bool` plus a
`Notify`. -/
structure AwaitableBool where
  bool : Bool
  notify : Notify
deriving DecidableEq, Repr

namespace AwaitableBool

/-- The `From<T: Into<AtomicBool>>` impl: wraps the given boolean cell with a
fresh `Notify::new()`. -/
def fromBool (value : Bool) : AwaitableBool := ⟨value, Notify.new⟩

/-- `AwaitableBool::new`: delegates to the `From` conversion. -/
def new (value : Bool) : AwaitableBool := fromBool value

/-- The `#[derive(Default)]` impl: `AtomicBool::default()` is `false`,
`Notify::default()` is `Notify::new()`. -/
def default : AwaitableBool := ⟨false, Notify.new⟩

/-- `AwaitableBool::set_true`: `compare_exchange(false, true, ..)`, and
`notify_waiters()` exactly when the exchange succeeded. -/
def set_true (s : AwaitableBool) : AwaitableBool :=
  let (newBool, ok) := compareExchange s.bool false true
  if ok then ⟨newBool, s.notify.notifyWaiters⟩ else ⟨newBool, s.notify⟩

/-- `AwaitableBool::set_false`: `compare_exchange(true, false, ..)`, and
`notify_waiters()` exactly when the exchange succeeded. -/
def set_false (s : AwaitableBool) : AwaitableBool :=
  let (newBool, ok) := compareExchange s.bool true false
  if ok then ⟨newBool, s.notify.notifyWaiters⟩ else ⟨newBool, s.notify⟩

/-- `AwaitableBool::toggle`: `fetch_xor(true, ..)` then an unconditional
`notify_waiters()`. -/
def toggle (s : AwaitableBool) : AwaitableBool :=
  ⟨fetchXor s.bool true, s.notify.notifyWaiters⟩

/-- `AwaitableBool::load`: an atomic read of the value (read-only). -/
def load (s : AwaitableBool) : Bool := s.bool

/-- `AwaitableBool::is_true`: defined as `self.load()`. -/
def is_true (s : AwaitableBool) : Bool := s.load

/-- `AwaitableBool::is_false`: defined as `!(self.load())`. -/
def is_false (s : AwaitableBool) : Bool := !(s.load)

/-- `AwaitableBool::into_inner`: consumes the struct and returns the `bool`
field (the `AtomicBool`), discarding the notifier.  We return the cell's
contained value. -/
def into_inner (s : AwaitableBool) : Bool := s.bool

end AwaitableBool

/-- State of the future returned by `AwaitableBool::wait` (which awaits
`self.notify.notified()`): not yet polled, registered at some generation, or
complete.  A tokio `Notified` future registers on its first poll, not at
creation. -/
inductive WaitState where
  | start
  | waiting (g : Nat)
  | done
deriving DecidableEq, Repr

/-- One poll of the `wait()` future.  First poll registers at the current
generation and pends (there is no stored permit to consume); later polls
complete exactly when a broadcast has happened since registration. -/
def pollWait : WaitState → AwaitableBool → WaitState × AwaitableBool
  | .start, s =>
      (.waiting s.notify.generation, { s with notify := s.notify.register })
  | .waiting g, s =>
      if s.notify.woken g then (.done, s) else (.waiting g, s)
  | .done, s => (.done, s)

/-- State of the futures returned by `wait_true` / `wait_false`: not yet
polled, driving the inner `wait()` future, or complete. -/
inductive CondWaitState where
  | notPolled
  | awaitingWait (w : WaitState)
  | done
deriving DecidableEq, Repr

/-- One poll of `wait_true()`.  The body is
`let wait_fut = self.wait(); if self.is_false() { wait_fut.await; }`:
creating `wait_fut` has no effect; on the first poll the value is checked and,
if `false`, the inner future is polled (registering a waiter); if the value is
already `true` the future completes with the unpolled `wait_fut` dropped.
After a wake the inner future's completion completes `wait_true` directly —
the code contains no re-check of the value. -/
def pollWaitTrue : CondWaitState → AwaitableBool → CondWaitState × AwaitableBool
  | .notPolled, s =>
      if s.is_false then
        let (w, s') := pollWait .start s
        (if w = .done then .done else .awaitingWait w, s')
      else (.done, s)
  | .awaitingWait w, s =>
      let (w', s') := pollWait w s
      (if w' = .done then .done else .awaitingWait w', s')
  | .done, s => (.done, s)

/-- One poll of `wait_false()`: symmetric to `wait_true`, guarded by
`self.is_true()`. -/
def pollWaitFalse : CondWaitState → AwaitableBool → CondWaitState × AwaitableBool
  | .notPolled, s =>
      if s.is_true then
        let (w, s') := pollWait .start s
        (if w = .done then .done else .awaitingWait w, s')
      else (.done, s)
  | .awaitingWait w, s =>
      let (w', s') := pollWait w s
      (if w' = .done then .done else .awaitingWait w', s')
  | .done, s => (.done, s)

/-- The mutating operations, for reasoning about arbitrary sequences of
mutations. -/
inductive MutOp where
  | setTrue
  | setFalse
  | toggleOp
deriving DecidableEq, Repr

/-- Apply one mutating operation. -/
def applyMutOp (s : AwaitableBool) : MutOp → AwaitableBool
  | .setTrue => s.set_true
  | .setFalse => s.set_false
  | .toggleOp => s.toggle

/-- Apply a sequence of mutating operations in order. -/
def applyMutOps (s : AwaitableBool) (ops : List MutOp) : AwaitableBool :=
  ops.foldl applyMutOp s

/-- C9: `is_true()` equals `load()`, `is_false()` equals `!load()`, and hence
`is_false()` is the negation of `is_true()`.  All three are read-only: in the
embedding they are pure functions of the state returning only a `Bool`. -/
theorem predicates_from_load (s : AwaitableBool) :
    s.is_true = s.load ∧ s.is_false = !s.load ∧ s.is_false = !s.is_true :=
  ⟨rfl, rfl, rfl⟩

/-- C6: a flag freshly constructed from initial value `v` (via `new` or the
`From` conversion) reports `load() = v`, `is_true() = v`, `is_false() = !v`,
and default construction yields `load() = false`. -/
theorem new_initial_values (v : Bool) :
    (AwaitableBool.new v).load = v
      ∧ (AwaitableBool.new v).is_true = v
      ∧ (AwaitableBool.new v).is_false = !v
      ∧ (AwaitableBool.fromBool v).load = v
      ∧ AwaitableBool.default.load = false :=
  ⟨rfl, rfl, rfl, rfl, rfl⟩

/-- C4: `set_true()` followed by `load()` yields `true` and `set_false()`
followed by `load()` yields `false`, from every state; both are idempotent —
a second consecutive call leaves the entire state (value and notifier)
unchanged. -/
theorem set_then_load_and_idempotent (s : AwaitableBool) :
    (s.set_true).load = true
      ∧ (s.set_false).load = false
      ∧ (s.set_true).set_true = s.set_true
      ∧ (s.set_false).set_false = s.set_false := by
  obtain ⟨b, n⟩ := s
  cases b <;>
    simp [AwaitableBool.set_true, AwaitableBool.set_false, AwaitableBool.load,
      compareExchange]

/-- C5: a single `toggle()` flips the value exactly once (`load()` afterward
is the negation of `load()` before), and two sequential `toggle()` calls
restore the starting value. -/
theorem toggle_flips_and_involutive (s : AwaitableBool) :
    (s.toggle).load = !s.load ∧ (s.toggle.toggle).load = s.load := by
  obtain ⟨b, n⟩ := s
  cases b <;> simp [AwaitableBool.toggle, AwaitableBool.load, fetchXor]

/-- C2: each mutating operation performs a single atomic update and fires the
notifier exactly when specified.  `set_true` always leaves the value `true`
and fires (advances the broadcast generation by one) iff the compare-and-swap
succeeded, i.e. iff the value was `false` and actually changed; when it does
not fire the notifier is wholly untouched; symmetrically for `set_false`.
`toggle` always writes (the value is always flipped) and always fires.  Thus
the notifier is never fired without the value having just been written. -/
theorem mutators_fire_iff_written (s : AwaitableBool) :
    (s.set_true).bool = true
      ∧ ((s.set_true).notify.generation = s.notify.generation + 1 ↔ s.bool = false)
      ∧ ((s.set_true).notify = s.notify ↔ s.bool = true)
      ∧ (s.set_false).bool = false
      ∧ ((s.set_false).notify.generation = s.notify.generation + 1 ↔ s.bool = true)
      ∧ ((s.set_false).notify = s.notify ↔ s.bool = false)
      ∧ (s.toggle).bool = !s.bool
      ∧ (s.toggle).notify.generation = s.notify.generation + 1 := by
  obtain ⟨b, g, w⟩ := s
  cases b <;>
    simp [AwaitableBool.set_true, AwaitableBool.set_false, AwaitableBool.toggle,
      compareExchange, fetchXor, Notify.notifyWaiters, Notify.mk.injEq]

/-- C7: after an arbitrary sequence of mutations, `into_inner` yields the
underlying boolean cell whose contained value equals what the flag's last
`load()` would return; the conversion is total and does not change the
value. -/
theorem into_inner_eq_last_load (s : AwaitableBool) (ops : List MutOp) :
    (applyMutOps s ops).into_inner = (applyMutOps s ops).load :=
  rfl

/-- C3: if the value is already `true` when `wait_true()` is first polled, the
future completes on that very poll — without suspending (no waiter is
registered: the state is returned unchanged) and without depending on any
mutation or notification by another task; symmetrically for `wait_false()` on
an already-`false` flag. -/
theorem wait_already_satisfied_immediate (s t : AwaitableBool)
    (hs : s.load = true) (ht : t.load = false) :
    pollWaitTrue .notPolled s = (.done, s)
      ∧ pollWaitFalse .notPolled t = (.done, t) := by
  constructor
  · simp [pollWaitTrue, AwaitableBool.is_false, hs]
  · simp [pollWaitFalse, AwaitableBool.is_true, ht]

/-- C3 witness: the theorem applied to concrete already-satisfied flags. -/
theorem wait_already_satisfied_immediate_witness :
    pollWaitTrue .notPolled (AwaitableBool.new true)
        = (.done, AwaitableBool.new true)
      ∧ pollWaitFalse .notPolled (AwaitableBool.new false)
        = (.done, AwaitableBool.new false) :=
  wait_already_satisfied_immediate (AwaitableBool.new true)
    (AwaitableBool.new false) rfl rfl

/-- C8: once `wait_true()` (resp. `wait_false()`) has suspended with its inner
`wait()` future registered at generation `g`, a poll completes exactly when at
least one broadcast has occurred since — regardless of the flag's value at
that moment — and otherwise leaves both the future and the shared state
untouched: the call never registers for a second broadcast. -/
theorem suspended_wait_single_broadcast (s : AwaitableBool) (g : Nat) :
    pollWaitTrue (.awaitingWait (.waiting g)) s =
        (if s.notify.woken g then (.done, s)
         else (.awaitingWait (.waiting g), s))
      ∧ pollWaitFalse (.awaitingWait (.waiting g)) s =
        (if s.notify.woken g then (.done, s)
         else (.awaitingWait (.waiting g), s)) := by
  cases hw : s.notify.woken g <;>
    simp [pollWaitTrue, pollWaitFalse, pollWait, hw]

/-- C1 counterexample to the claim as stated: the flag starts `false`, a
`wait_true()` call suspends, then `toggle()` runs twice (value `true` then
`false` again, each broadcasting).  The next poll of `wait_true()` completes
even though `load()` is `false` at that moment — so `wait_true()` does not
re-check `load()` after wake-up and can complete while the value is
`false`. -/
theorem wait_true_completes_while_false_cex :
    (pollWaitTrue (pollWaitTrue .notPolled (AwaitableBool.new false)).1
        ((pollWaitTrue .notPolled (AwaitableBool.new false)).2.toggle.toggle)).1
      = CondWaitState.done
    ∧ (pollWaitTrue .notPolled
        (AwaitableBool.new false)).2.toggle.toggle.load = false := by
  decide

/-- C1 amended: when `wait_true()` (resp. `wait_false()`) has suspended, it
completes on the first poll after any subsequent broadcast without re-checking
`load()`, even when the flag's value is still `false` (resp. still `true`) at
that moment. -/
theorem wait_true_completes_on_first_broadcast (s t : AwaitableBool)
    (g h : Nat) (_hsb : s.bool = false) (hsw : s.notify.woken g = true)
    (_htb : t.bool = true) (htw : t.notify.woken h = true) :
    pollWaitTrue (.awaitingWait (.waiting g)) s = (.done, s)
      ∧ pollWaitFalse (.awaitingWait (.waiting h)) t = (.done, t) := by
  constructor
  · simp [pollWaitTrue, pollWait, hsw]
  · simp [pollWaitFalse, pollWait, htw]

/-- C1 amended witness: concrete suspended waiters woken by two broadcasts
complete with the condition still unmet. -/
theorem wait_true_completes_on_first_broadcast_witness :
    pollWaitTrue (.awaitingWait (.waiting 0)) ⟨false, 2, 0⟩
        = (.done, ⟨false, 2, 0⟩)
      ∧ pollWaitFalse (.awaitingWait (.waiting 0)) ⟨true, 2, 0⟩
        = (.done, ⟨true, 2, 0⟩) :=
  wait_true_completes_on_first_broadcast ⟨false, 2, 0⟩ ⟨true, 2, 0⟩ 0 0
    rfl (by decide) rfl (by decide)

/-- C10: the fast path of `wait_true()` (value already `true`) leaves the
notifier's state completely unchanged — the broadcast generation is not
advanced or consumed and no waiter is registered — so other waiters and
future broadcasts are unaffected; symmetrically for `wait_false()` on an
already-`false` flag. -/
theorem fast_path_preserves_notify (s t : AwaitableBool)
    (hs : s.load = true) (ht : t.load = false) :
    ((pollWaitTrue .notPolled s).2.notify.generation = s.notify.generation
      ∧ (pollWaitTrue .notPolled s).2.notify.waiters = s.notify.waiters)
    ∧ ((pollWaitFalse .notPolled t).2.notify.generation = t.notify.generation
      ∧ (pollWaitFalse .notPolled t).2.notify.waiters = t.notify.waiters) := by
  constructor <;> constructor <;>
    simp [pollWaitTrue, pollWaitFalse, AwaitableBool.is_false,
      AwaitableBool.is_true, hs, ht]

/-- C10 witness: concrete flags with nonzero generation and registered
waiters; the fast path leaves both fields as they were. -/
theorem fast_path_preserves_notify_witness :
    ((pollWaitTrue .notPolled ⟨true, 3, 2⟩).2.notify.generation = 3
      ∧ (pollWaitTrue .notPolled ⟨true, 3, 2⟩).2.notify.waiters = 2)
    ∧ ((pollWaitFalse .notPolled ⟨false, 5, 1⟩).2.notify.generation = 5
      ∧ (pollWaitFalse .notPolled ⟨false, 5, 1⟩).2.notify.waiters = 1) :=
  fast_path_preserves_notify ⟨true, 3, 2⟩ ⟨false, 5, 1⟩ rfl rfl
